import Mathlib

/-!
Shallow embedding of the run supervision engine of the `rum` job manager
(src/runs.rs, src/actions/send_signal.rs, src/actions/remove.rs,
src/utils/tail.rs), together with theorems settling the frozen claims
about it.

Conventions of the embedding:
- Timestamps (chrono DateTime<Utc>) are modelled as abstract integers.
- Fallible OS and I/O steps are modelled by explicit failure-injection
  parameters (an `Option String` carrying the error message when the
  step fails).
- The detached supervisor process of Run::start is modelled as a pure
  function from its failure-injection environment to the sequence of
  observable actions it performs (its event trace) and its result.
-/

namespace Rum

/-- The state field of a run record; from `enum RunDataState` in src/runs.rs.
The pgid payload is the nix Pid stored via serde_nix_pid (a raw i32). -/
inductive RunDataState
  | running (pgid : Int)
  | done (end_datetime : Int) (exit_code : Int)
deriving DecidableEq

/-- A run record; from `struct RunData` in src/runs.rs. -/
structure RunData where
  label : Option String
  command : List String
  start_datetime : Int
  state : RunDataState
deriving DecidableEq

/-- The launch failure taxonomy; from `enum ForkedError` in src/runs.rs. -/
inductive ForkedError
  | couldntCreateOutputFile (message : String)
  | couldntSetProcessGroup (message : String)
  | couldntSetData (message : String)
  | failedToSpawn (command : String) (message : String)
deriving DecidableEq

/-- The one-shot channel message; from `enum Message` inside Run::start. -/
inductive Message
  | started
  | err (e : ForkedError)
deriving DecidableEq

/-! ## Run Store: id resolution (Runs::get_run, src/runs.rs lines 75-93) -/

/-- Resolution errors of Runs::get_run.  In the source both are anyhow
messages: notFound is rendered "No matching ID for query ...", ambiguousId
is rendered "Multiple matching IDs for query ...". -/
inductive GetRunError
  | notFound
  | ambiguousId
deriving DecidableEq

/-- Rust str::starts_with on the query, i.e. the query is a character-prefix
of the run id.  Modelled on the underlying character sequences. -/
def startsWith (run_id query : String) : Bool :=
  query.data.isPrefixOf run_id.data

/-- Runs::get_run from src/runs.rs: filter all existing run ids by
"run_id starts with the query", then match on the list of matches:
empty gives notFound, a singleton gives that run, anything longer gives
ambiguousId. -/
def get_run (query : String) (ids : List String) : Except GetRunError String :=
  match ids.filter (fun run_id => startsWith run_id query) with
  | [] => .error .notFound
  | [run] => .ok run
  | _ => .error .ambiguousId

/-! ## Signal Dispatcher (src/actions/send_signal.rs) -/

/-- The three signal kinds exposed by the CLI (interrupt, terminate, kill
subcommands in src/main.rs). -/
inductive SignalKind
  | sigint
  | sigterm
  | sigkill
deriving DecidableEq

/-- An OS process, carrying its process id and its process-group id. -/
structure OsProc where
  pid : Int
  pgid : Int
deriving DecidableEq

/-- kill(2) semantics, as the set of processes the signal is delivered to:
a positive argument targets exactly the process with that pid; an argument
below -1 targets every process in the group with id equal to its absolute
value.  (The cases 0 and -1 are caller-relative and never arise here:
stored process-group ids are positive.) -/
def kill (p : Int) (procs : List OsProc) : List OsProc :=
  if 0 < p then procs.filter (fun q => q.pid = p)
  else if p < -1 then procs.filter (fun q => q.pgid = -p)
  else []

/-- send_signal from src/actions/send_signal.rs: read the record; in the
Running state call signal::kill with the stored id (returned here as the
set of processes the signal reaches); in the Done state fail with the
anyhow message "Still running: id".  The signal kind does not affect
which processes are targeted. -/
def send_signal (run_id : String) (signal : SignalKind) (rd : RunData)
    (procs : List OsProc) : Except String (List OsProc) :=
  match rd.state with
  | .running pgid => .ok (kill pgid procs)
  | .done _ _ => .error ("Still running: " ++ run_id)

/-! ## Launch Protocol (Run::start and Run::spawn_process, src/runs.rs)

The detached supervisor (the Fork::Child branch of Run::start) is modelled
as a pure function of a failure-injection environment.  It returns the
sequence of observable actions it performs, in program order, together
with its result. -/

/-- An observable action of the supervisor process.  killChild is the
action of signalling the spawned command; no code path of Run::start
performs it, so no model path emits it. -/
inductive Event
  | createOutputFile
  | spawnCmd (argv0 : String)
  | setProcessGroup
  | writeRecord (rd : RunData)
  | sendMsg (m : Message)
  | removeRunDir
  | waitChild
  | killChild
deriving DecidableEq

/-- Failure-injection environment for one supervisor execution: each
fallible OS/I-O step either succeeds (none) or fails with a message
(some m); pgid is the getpgid(None) result (always available, per the
source comment); waitResult is the outcome of process.wait():
none when wait itself fails, some c when the child exited with
ExitStatus whose .code() is c (c = none when terminated by a signal). -/
structure LaunchEnv where
  createFileFail : Option String
  pgid : Int
  spawnFail : Option String
  setpgidFail : Option String
  setDataFail : Option String
  waitResult : Option (Option Int)
  startTime : Int
  endTime : Int

/-- Run::spawn_process from src/runs.rs lines 165-206, in program order:
create the output file, read getpgid, spawn the user command, call
setpgid(0,0), then write the Running record with set_data.  The first
failing step aborts with the matching ForkedError; on success the
written Running record is returned (the source returns the Child handle;
the record is what the rest of the protocol reads back). -/
def spawn_process (env : LaunchEnv) (command : List String) (label : Option String) :
    List Event × Except ForkedError RunData :=
  match env.createFileFail with
  | some m => ([], .error (.couldntCreateOutputFile m))
  | none =>
    match env.spawnFail with
    | some m => ([.createOutputFile], .error (.failedToSpawn (command.headD "") m))
    | none =>
      match env.setpgidFail with
      | some m =>
          ([.createOutputFile, .spawnCmd (command.headD "")],
           .error (.couldntSetProcessGroup m))
      | none =>
          match env.setDataFail with
          | some m =>
              ([.createOutputFile, .spawnCmd (command.headD ""), .setProcessGroup],
               .error (.couldntSetData m))
          | none =>
              let rd : RunData :=
                { label := label, command := command, start_datetime := env.startTime,
                  state := .running env.pgid }
              ([.createOutputFile, .spawnCmd (command.headD ""), .setProcessGroup,
                .writeRecord rd], .ok rd)

/-- Run::update_data from src/runs.rs lines 154-163: read the stored
record, apply the update function, write the result back.  There is no
guard on the current state; the update is applied unconditionally. -/
def update_data (f : RunData → RunData) (stored : RunData) : RunData :=
  f stored

/-- The update closure of the Ok branch of the wait match in Run::start:
state becomes Done with exit_code = exit_status.code().unwrap_or(-1)
and end_datetime = now; all other fields are kept. -/
def doneUpdateOk (code : Option Int) (now : Int) (run_data : RunData) : RunData :=
  { run_data with state := .done now (code.getD (-1)) }

/-- The update closure of the Err branch of the wait match in Run::start:
state becomes Done with the sentinel exit_code -2. -/
def doneUpdateErr (now : Int) (run_data : RunData) : RunData :=
  { run_data with state := .done now (-2) }

/-- The wait match of Run::start lines 229-248: on Ok(exit_status) apply
the exit-code update, on Err(_) apply the sentinel -2 update, in both
cases through update_data. -/
def superviseExit (waitResult : Option (Option Int)) (now : Int)
    (run_data : RunData) : RunData :=
  match waitResult with
  | some code => update_data (doneUpdateOk code now) run_data
  | none => update_data (doneUpdateErr now) run_data

/-- The Fork::Child branch of Run::start: run spawn_process; on success
send Started over the channel, wait for the child and write the terminal
record; on failure send the tagged error over the channel and then delete
the run directory.  (Channel sends and the directory removal are modelled
as succeeding; the caller receives exactly the message sent.) -/
def supervisorChild (env : LaunchEnv) (command : List String) (label : Option String) :
    List Event × Except ForkedError Unit :=
  match spawn_process env command label with
  | (events, .ok rd) =>
      (events ++ [.sendMsg .started, .waitChild,
        .writeRecord (superviseExit env.waitResult env.endTime rd)], .ok ())
  | (events, .error e) =>
      (events ++ [.sendMsg (.err e), .removeRunDir], .error e)

/-- The record writes of a trace, in order. -/
def recordWrites (events : List Event) : List RunData :=
  events.filterMap (fun ev =>
    match ev with
    | .writeRecord rd => some rd
    | _ => none)

/-! ## Run removal (remove_run in src/actions/remove.rs, Runs::remove_run) -/

/-- An observable action of remove_run. killProcess is never performed by
any path of the source function and no model path emits it. -/
inductive RemovalStep
  | showInfo
  | removeDir
  | killProcess
deriving DecidableEq

/-- remove_run from src/actions/remove.rs: read the record (dataResult
injects get_data's outcome); on a Done record, either confirm
interactively (show_run_info, then delete only on a yes answer) or delete
directly; on a Running record fail with "Still running: id" and do
nothing else.  Runs::remove_run (the directory deletion) is the
removeDir step. -/
def remove_run (run_id : String) (dataResult : Except String RunData)
    (ask_for_confirmation : Bool) (confirmAnswer : Bool) :
    List RemovalStep × Except String Unit :=
  match dataResult with
  | .error m => ([], .error m)
  | .ok rd =>
    match rd.state with
    | .done _ _ =>
      if ask_for_confirmation then
        if confirmAnswer then ([.showInfo, .removeDir], .ok ())
        else ([.showInfo], .ok ())
      else ([.removeDir], .ok ())
    | .running _ => ([], .error ("Still running: " ++ run_id))

/-! ## Tail Follower (follow_tail in src/utils/tail.rs)

The file contents are byte sequences (List Nat).  The loop is driven by a
finite list of stimuli, one per iteration: the outcome of rx.try_recv()
together with the file content visible at that moment, and the answer
on_iter gives at the end of the iteration (true requests termination). -/

/-- One iteration's try_recv outcome. write c is a DebouncedEvent::Write
arriving while the file content is c; otherBody is any other event;
noEvent is TryRecvError::Empty (the loop just sleeps 10ms); disconnected
is TryRecvError::Disconnected. -/
inductive TailEvent
  | write (content : List Nat)
  | otherBody
  | noEvent
  | disconnected

/-- State of the follower loop: the tracked byte offset and the chunks
passed to on_new_text so far, in order. -/
structure TailState where
  seek : Nat
  chunks : List (List Nat)
deriving DecidableEq

/-- The update closure of follow_tail: seek to the tracked offset, read
everything from there to the end of the file, advance the offset by the
amount read, and hand the chunk to on_new_text. -/
def tailUpdate (content : List Nat) (s : TailState) : TailState :=
  let chunk := content.drop s.seek
  { seek := s.seek + chunk.length, chunks := s.chunks ++ [chunk] }

/-- The main loop of follow_tail: on a Write event run the update; on any
other event do nothing; on Empty sleep; on Disconnected return the watcher
error.  After each iteration on_iter is consulted and a true answer breaks
the loop.  The model runs over the finite stimulus list and returns the
final state together with the error message, if any. -/
def tailLoop : List (TailEvent × Bool) → TailState → TailState × Option String
  | [], s => (s, none)
  | (ev, quit) :: rest, s =>
    match ev with
    | .write c =>
        let s2 := tailUpdate c s
        if quit then (s2, none) else tailLoop rest s2
    | .otherBody => if quit then (s, none) else tailLoop rest s
    | .noEvent => if quit then (s, none) else tailLoop rest s
    | .disconnected => (s, some "Output file watcher disconnected")

/-- follow_tail from src/utils/tail.rs: open the file, start at offset 0,
run the update once unconditionally (delivering the whole current content,
possibly empty), then enter the loop.  Returns the chunks delivered to
on_new_text and the error, if any. -/
def follow_tail (initContent : List Nat) (stimuli : List (TailEvent × Bool)) :
    List (List Nat) × Option String :=
  let s0 := tailUpdate initContent { seek := 0, chunks := [] }
  let r := tailLoop stimuli s0
  (r.1.chunks, r.2)

/-! ## Concrete fixtures used by witnesses and counterexamples -/

/-- A record in the Running state, process-group id 5. -/
def runningRecord : RunData :=
  { label := none, command := ["sleep", "5"], start_datetime := 0,
    state := .running 5 }

/-- A record in the Done state (exited 0 at time 5). -/
def doneRecord : RunData :=
  { label := none, command := ["ls"], start_datetime := 0,
    state := .done 5 0 }

/-! ## Claims about the Run Store and the Signal Dispatcher -/

/-- C6: get_run returns the unique run whose id starts with the query when
exactly one id matches (and that run indeed comes from the id list and has
the query as a prefix), fails with notFound when no id matches, and fails
with ambiguousId whenever two or more ids match; it never silently picks
among multiple matches. -/
theorem get_run_prefix_resolution (query : String) (ids : List String) :
    (ids.filter (fun run_id => startsWith run_id query) = [] →
      get_run query ids = .error .notFound)
    ∧ (∀ run, ids.filter (fun run_id => startsWith run_id query) = [run] →
        get_run query ids = .ok run ∧ run ∈ ids ∧ startsWith run query = true)
    ∧ (2 ≤ (ids.filter (fun run_id => startsWith run_id query)).length →
      get_run query ids = .error .ambiguousId) := by
  refine ⟨?_, ?_, ?_⟩
  · intro h
    unfold get_run
    rw [h]
  · intro run h
    have hmem : run ∈ ids.filter (fun run_id => startsWith run_id query) := by
      rw [h]; exact List.mem_singleton_self run
    refine ⟨?_, (List.mem_filter.mp hmem).1, (List.mem_filter.mp hmem).2⟩
    unfold get_run
    rw [h]
  · intro h
    unfold get_run
    match hm : ids.filter (fun run_id => startsWith run_id query) with
    | [] => rw [hm] at h; simp at h
    | [x] => rw [hm] at h; simp at h
    | x :: y :: rest => rfl

/-- Witness for C6: all three branches at concrete inputs. -/
theorem get_run_prefix_resolution_witness :
    get_run "ab" ["abc", "xyz"] = .ok "abc"
    ∧ get_run "zz" ["abc", "xyz"] = .error .notFound
    ∧ get_run "ab" ["abc", "abd"] = .error .ambiguousId :=
  ⟨((get_run_prefix_resolution "ab" ["abc", "xyz"]).2.1 "abc" (by decide)).1,
   (get_run_prefix_resolution "zz" ["abc", "xyz"]).1 (by decide),
   (get_run_prefix_resolution "ab" ["abc", "abd"]).2.2 (by decide)⟩

/-- C4: evaluation of send_signal at a failing input.  The record stores
process-group id 5 and the group holds two processes (pids 5 and 11); the
dispatcher passes the stored id to kill as a plain (positive) pid, so the
signal reaches only the process whose pid equals 5 and misses the other
member of the group — it does not reach every process in the job's tree. -/
theorem send_signal_targets_single_process :
    send_signal "r1" .sigterm runningRecord
        [{ pid := 5, pgid := 5 }, { pid := 11, pgid := 5 }]
      = .ok [{ pid := 5, pgid := 5 }]
    ∧ ({ pid := 11, pgid := 5 } : OsProc).pgid = 5
    ∧ ({ pid := 11, pgid := 5 } : OsProc) ∉ [({ pid := 5, pgid := 5 } : OsProc)] := by
  refine ⟨rfl, rfl, ?_⟩
  decide

/-- C5: evaluation of send_signal at a failing input.  For a record in the
Done state, regardless of the signal kind, the call fails (no process is
signalled) but the error it reports reads "Still running: r1" — the
StillRunning wording, not an already-finished error. -/
theorem send_signal_done_reports_still_running (signal : SignalKind) :
    send_signal "r1" signal doneRecord [{ pid := 5, pgid := 5 }]
      = .error "Still running: r1" := rfl

/-! ## Claims about the Tail Follower -/

/-- C7 counterexample: with an empty initial file and two appends (bytes
of "abc", then of "def"), the follower invokes on_new_text three times —
an initial invocation with the empty chunk, then "abc", then "def" — not
exactly twice; the concatenation of the chunks is still "abcdef". -/
theorem follow_tail_not_two_invocations :
    (follow_tail [] [(.write [97, 98, 99], false),
        (.write [97, 98, 99, 100, 101, 102], false), (.noEvent, true)]).1
      = [[], [97, 98, 99], [100, 101, 102]]
    ∧ (follow_tail [] [(.write [97, 98, 99], false),
        (.write [97, 98, 99, 100, 101, 102], false), (.noEvent, true)]).1
      ≠ [[97, 98, 99], [100, 101, 102]]
    ∧ List.flatten [[], [97, 98, 99], [100, 101, 102]]
      = [97, 98, 99] ++ [100, 101, 102] := by
  decide

/-- C7 (amended): a follower started on an empty file before two separate
appends x then y delivers exactly the concatenation x ++ y, never
duplicated and never reordered, split across exactly three invocations of
on_new_text: the initial whole-history replay (the empty chunk for a file
empty at start), then x, then y. -/
theorem follow_tail_two_appends (x y : List Nat) :
    follow_tail [] [(.write x, false), (.write (x ++ y), false), (.noEvent, true)]
      = ([[], x, y], none) := by
  simp [follow_tail, tailLoop, tailUpdate]

/-! ## Claims about the Launch Protocol -/

/-- A launch environment in which the spawn step fails (executable not
found) and every other step would succeed. -/
def envSpawnFail : LaunchEnv :=
  { createFileFail := none, pgid := 5,
    spawnFail := some "No such file or directory",
    setpgidFail := none, setDataFail := none,
    waitResult := some (some 0), startTime := 0, endTime := 1 }

/-- A launch environment in which every step succeeds and the child exits
with code 0. -/
def envOkLaunch : LaunchEnv :=
  { createFileFail := none, pgid := 7, spawnFail := none,
    setpgidFail := none, setDataFail := none,
    waitResult := some (some 0), startTime := 2, endTime := 3 }

/-- A launch environment in which the Running record write fails after a
successful spawn. -/
def envSetDataFail : LaunchEnv :=
  { createFileFail := none, pgid := 7, spawnFail := none,
    setpgidFail := none, setDataFail := some "disk full",
    waitResult := some (some 0), startTime := 2, endTime := 3 }

/-- C1 (amended): whenever a step of spawn_process fails, the supervisor
sends the tagged error naming the failed step over the channel and then
deletes the run directory, and its result is that error; the error
constructor identifies the first failing step (output-file creation,
spawn, process-group assignment, or record write, in program order). -/
theorem launch_failure_reports_step_then_deletes (env : LaunchEnv)
    (command : List String) (label : Option String) (e : ForkedError)
    (h : (spawn_process env command label).2 = .error e) :
    supervisorChild env command label =
      ((spawn_process env command label).1
        ++ [.sendMsg (.err e), .removeRunDir], .error e)
    ∧ (∀ m, env.createFileFail = some m → e = .couldntCreateOutputFile m)
    ∧ (env.createFileFail = none → ∀ m, env.spawnFail = some m →
        e = .failedToSpawn (command.headD "") m)
    ∧ (env.createFileFail = none → env.spawnFail = none →
        ∀ m, env.setpgidFail = some m → e = .couldntSetProcessGroup m)
    ∧ (env.createFileFail = none → env.spawnFail = none →
        env.setpgidFail = none → ∀ m, env.setDataFail = some m →
        e = .couldntSetData m) := by
  obtain ⟨cf, pg, sp, spg, sd, w, t0, t1⟩ := env
  cases cf <;> cases sp <;> cases spg <;> cases sd <;>
    simp_all [supervisorChild, spawn_process]

/-- Witness for C1's theorem at a concrete spawn failure. -/
theorem launch_failure_reports_step_then_deletes_witness :
    supervisorChild envSpawnFail ["ls"] none =
      ((spawn_process envSpawnFail ["ls"] none).1
        ++ [.sendMsg (.err (.failedToSpawn "ls" "No such file or directory")),
            .removeRunDir],
       .error (.failedToSpawn "ls" "No such file or directory")) :=
  (launch_failure_reports_step_then_deletes envSpawnFail ["ls"] none
    (.failedToSpawn "ls" "No such file or directory") rfl).1

/-- C1 counterexample: at a concrete spawn failure, the failure message is
sent over the channel, but no run-directory deletion precedes it in the
supervisor trace (the deletion happens only after the error is reported),
refuting "the run's directory is deleted before the error is reported". -/
theorem launch_error_not_preceded_by_deletion :
    (Event.sendMsg (Message.err (ForkedError.failedToSpawn "ls" "No such file or directory"))
        ∈ (supervisorChild envSpawnFail ["ls"] none).1)
    ∧ Event.removeRunDir ∉
        ((supervisorChild envSpawnFail ["ls"] none).1.takeWhile
          (fun ev => decide (ev ≠ Event.sendMsg (Message.err
            (ForkedError.failedToSpawn "ls" "No such file or directory"))))) := by
  decide

/-- C2: in every launch environment, if the supervisor sends the Started
success message, the trace up to that message ends with the write of a
record in the Running state carrying the recorded process-group id — the
Running record write precedes the success message. -/
theorem running_record_precedes_started_message (env : LaunchEnv)
    (command : List String) (label : Option String)
    (h : Event.sendMsg Message.started ∈ (supervisorChild env command label).1) :
    ∃ rd rest,
      (supervisorChild env command label).1 =
        [Event.createOutputFile, Event.spawnCmd (command.headD ""),
         Event.setProcessGroup, Event.writeRecord rd]
          ++ Event.sendMsg Message.started :: rest
      ∧ rd.state = RunDataState.running env.pgid := by
  obtain ⟨cf, pg, sp, spg, sd, w, t0, t1⟩ := env
  cases cf <;> cases sp <;> cases spg <;> cases sd <;>
    simp_all [supervisorChild, spawn_process]

/-- Witness for C2 at a concrete successful launch. -/
theorem running_record_precedes_started_message_witness :
    ∃ rd rest,
      (supervisorChild envOkLaunch ["sleep", "5"] none).1 =
        [Event.createOutputFile, Event.spawnCmd (["sleep", "5"].headD ""),
         Event.setProcessGroup, Event.writeRecord rd]
          ++ Event.sendMsg Message.started :: rest
      ∧ rd.state = RunDataState.running envOkLaunch.pgid :=
  running_record_precedes_started_message envOkLaunch ["sleep", "5"] none (by decide)

/-- C3 counterexample: update_data applies its update unconditionally, so
applying the supervisor's wait-error update to a record that is already
Done observably changes the stored record — Done is not immutable under
updateRecord. -/
theorem update_after_done_changes_record :
    update_data (doneUpdateErr 7) doneRecord ≠ doneRecord := by
  decide

/-- C3 (amended): on the successful launch path the supervisor writes the
record exactly twice — once in the Running state and once, after observing
the child's exit, in the Done state — so the stored state transitions
exactly once from Running to Done.  update_data itself has no
terminal-state guard (see the counterexample); the invariant holds because
no code path applies a further update after the terminal write. -/
theorem record_written_running_then_done_once (env : LaunchEnv)
    (command : List String) (label : Option String)
    (hcf : env.createFileFail = none) (hsp : env.spawnFail = none)
    (hpg : env.setpgidFail = none) (hsd : env.setDataFail = none) :
    ∃ rdR,
      recordWrites (supervisorChild env command label).1
        = [rdR, superviseExit env.waitResult env.endTime rdR]
      ∧ rdR.state = RunDataState.running env.pgid
      ∧ ∃ t c, (superviseExit env.waitResult env.endTime rdR).state
          = RunDataState.done t c := by
  obtain ⟨cf, pg, sp, spg, sd, w, t0, t1⟩ := env
  simp only at hcf hsp hpg hsd
  subst hcf hsp hpg hsd
  refine ⟨{ label := label, command := command, start_datetime := t0,
            state := .running pg }, ?_, rfl, ?_⟩
  · simp [supervisorChild, spawn_process, recordWrites]
  · cases w with
    | none => exact ⟨t1, -2, rfl⟩
    | some code => exact ⟨t1, code.getD (-1), rfl⟩

/-- Witness for C3's amended theorem at a concrete successful launch. -/
theorem record_written_running_then_done_once_witness :
    ∃ rdR,
      recordWrites (supervisorChild envOkLaunch ["sleep", "5"] none).1
        = [rdR, superviseExit envOkLaunch.waitResult envOkLaunch.endTime rdR]
      ∧ rdR.state = RunDataState.running envOkLaunch.pgid
      ∧ ∃ t c, (superviseExit envOkLaunch.waitResult envOkLaunch.endTime rdR).state
          = RunDataState.done t c :=
  record_written_running_then_done_once envOkLaunch ["sleep", "5"] none
    rfl rfl rfl rfl

/-- C8: the terminal record written after the supervisor observes the
child's exit is always Done: with the child's actual exit code when one is
available, with the sentinel -1 when the child was terminated by a signal
(no code available), and with the sentinel -2 when waiting on the child
itself failed — the record never stays Running due to a supervisor-side
error. -/
theorem done_exit_code_convention (w : Option (Option Int)) (now : Int)
    (rd : RunData) :
    (∀ c, w = some (some c) → (superviseExit w now rd).state = .done now c)
    ∧ (w = some none → (superviseExit w now rd).state = .done now (-1))
    ∧ (w = none → (superviseExit w now rd).state = .done now (-2))
    ∧ ∃ t c, (superviseExit w now rd).state = .done t c := by
  cases w with
  | none => simp [superviseExit, update_data, doneUpdateErr]
  | some code =>
    cases code <;> simp [superviseExit, update_data, doneUpdateOk]

/-- Witness for C8: all three exit-observation outcomes at concrete inputs. -/
theorem done_exit_code_convention_witness :
    (superviseExit (some (some 0)) 9 runningRecord).state = .done 9 0
    ∧ (superviseExit (some none) 9 runningRecord).state = .done 9 (-1)
    ∧ (superviseExit none 9 runningRecord).state = .done 9 (-2) :=
  ⟨(done_exit_code_convention (some (some 0)) 9 runningRecord).1 0 rfl,
   (done_exit_code_convention (some none) 9 runningRecord).2.1 rfl,
   (done_exit_code_convention none 9 runningRecord).2.2.1 rfl⟩

/-- C10: (i) whenever the supervisor trace contains the process-group
assignment or a Running record write, the trace begins with output-file
creation followed by the spawn of the user command followed by the group
assignment — the command is spawned before the group assignment and before
the record is persisted; (ii) if the group assignment or the record write
fails after a successful spawn, the supervisor reports a launch error,
sends it over the channel and deletes the run directory, while never
signalling the already-spawned command. -/
theorem spawn_precedes_group_and_record (env : LaunchEnv)
    (command : List String) (label : Option String) :
    ((Event.setProcessGroup ∈ (supervisorChild env command label).1
        ∨ ∃ rd pg, Event.writeRecord rd ∈ (supervisorChild env command label).1
            ∧ rd.state = RunDataState.running pg) →
      ∃ rest, (supervisorChild env command label).1 =
        Event.createOutputFile :: Event.spawnCmd (command.headD "")
          :: Event.setProcessGroup :: rest)
    ∧ (env.createFileFail = none → env.spawnFail = none →
        (env.setpgidFail ≠ none ∨ env.setDataFail ≠ none) →
        ∃ e, (supervisorChild env command label).2 = .error e
          ∧ Event.spawnCmd (command.headD "") ∈ (supervisorChild env command label).1
          ∧ Event.sendMsg (Message.err e) ∈ (supervisorChild env command label).1
          ∧ Event.removeRunDir ∈ (supervisorChild env command label).1
          ∧ Event.killChild ∉ (supervisorChild env command label).1) := by
  obtain ⟨cf, pg, sp, spg, sd, w, t0, t1⟩ := env
  cases cf <;> cases sp <;> cases spg <;> cases sd <;>
    simp_all [supervisorChild, spawn_process]

/-- Witness for C10: part (i) at a successful launch, part (ii) at a
record-write failure after a successful spawn. -/
theorem spawn_precedes_group_and_record_witness :
    (∃ rest, (supervisorChild envOkLaunch ["sleep", "5"] none).1 =
        Event.createOutputFile :: Event.spawnCmd (["sleep", "5"].headD "")
          :: Event.setProcessGroup :: rest)
    ∧ ∃ e, (supervisorChild envSetDataFail ["sleep", "5"] none).2 = .error e
        ∧ Event.spawnCmd (["sleep", "5"].headD "")
            ∈ (supervisorChild envSetDataFail ["sleep", "5"] none).1
        ∧ Event.sendMsg (Message.err e)
            ∈ (supervisorChild envSetDataFail ["sleep", "5"] none).1
        ∧ Event.removeRunDir ∈ (supervisorChild envSetDataFail ["sleep", "5"] none).1
        ∧ Event.killChild ∉ (supervisorChild envSetDataFail ["sleep", "5"] none).1 :=
  ⟨(spawn_precedes_group_and_record envOkLaunch ["sleep", "5"] none).1
      (Or.inl (by decide)),
   (spawn_precedes_group_and_record envSetDataFail ["sleep", "5"] none).2
      rfl rfl (Or.inr (by decide))⟩

/-! ## Claims about run removal -/

/-- C9: removing a run whose record is Running fails with the
"Still running" error and performs no step at all (the directory and
record are untouched and no process is signalled); the directory deletion
step is ever performed only when the record is Done; and no path of
remove_run kills the run's process. -/
theorem remove_run_requires_done (run_id : String)
    (dataResult : Except String RunData) (ask : Bool) (ans : Bool) :
    (∀ rd pg, dataResult = .ok rd → rd.state = .running pg →
      remove_run run_id dataResult ask ans
        = ([], .error ("Still running: " ++ run_id)))
    ∧ (RemovalStep.removeDir ∈ (remove_run run_id dataResult ask ans).1 →
        ∃ rd t c, dataResult = .ok rd ∧ rd.state = .done t c)
    ∧ RemovalStep.killProcess ∉ (remove_run run_id dataResult ask ans).1 := by
  cases dataResult with
  | error m => simp [remove_run]
  | ok rd =>
    match hstate : rd.state with
    | .running pg => simp_all [remove_run]
    | .done t c =>
      refine ⟨?_, fun _ => ⟨rd, t, c, rfl, hstate⟩, ?_⟩
      · intro rd1 pg h1 h2
        injection h1 with h1
        subst h1
        rw [hstate] at h2
        exact absurd h2 (by simp)
      · cases ask <;> cases ans <;> simp [remove_run, hstate]

/-- Witness for C9: the Running branch and the Done branch at concrete
records. -/
theorem remove_run_requires_done_witness :
    remove_run "r1" (.ok runningRecord) false false
      = ([], .error ("Still running: " ++ "r1"))
    ∧ ∃ rd t c, (Except.ok doneRecord : Except String RunData) = .ok rd
        ∧ rd.state = .done t c :=
  ⟨(remove_run_requires_done "r1" (.ok runningRecord) false false).1
      runningRecord 5 rfl rfl,
   (remove_run_requires_done "r1" (.ok doneRecord) false false).2.1 (by decide)⟩

end Rum
